import Mathlib

/-!
# ElderGuard backend: the scam-check and config-probe handlers

A shallow embedding of `api/check.js` and `api/test.js`.

* JavaScript strings are sequences of UTF-16 code units (`JsString`), so that
  `slice`, `length` and `trim` count what the runtime counts.
* JavaScript values are the JSON values plus `undefined` (`JsVal`).
* Exceptions are `Except JsErr`; the outbound `fetch` is a function argument and
  every call made is recorded next to the response that was sent.
* `res.status(code).json(body)` records the status and the object passed; `req.method`
  is a string; `console.error` is not observed.
* `JSON.parse` is embedded as a parser over code units; `Number::toString`, the one
  floating-point routine the handler can reach, is an argument (`numberToString`).
-/

namespace ElderGuard

/-! ## Strings -/

/-- A JavaScript string: its UTF-16 code units. -/
abbrev JsString := List Nat

/-- The UTF-16 code units of one Unicode scalar value. -/
def utf16Char (c : Char) : List Nat :=
  if c.toNat < 65536 then [c.toNat]
  else [55296 + (c.toNat - 65536) / 1024, 56320 + (c.toNat - 65536) % 1024]

/-- The JavaScript string written by a source literal. -/
def js (s : String) : JsString := s.toList.flatMap utf16Char

/-- The code units removed by `String.prototype.trim`: WhiteSpace and LineTerminator. -/
def isWhiteSpace (c : Nat) : Bool :=
  c == 9 || c == 10 || c == 11 || c == 12 || c == 13 || c == 32 || c == 160 ||
  c == 5760 || (8192 ≤ c && c ≤ 8202) || c == 8232 || c == 8233 || c == 8239 ||
  c == 8287 || c == 12288 || c == 65279

/-- The method `String.prototype.trimStart`. -/
def trimStart (s : JsString) : JsString := s.dropWhile isWhiteSpace

/-- The method `String.prototype.trimEnd`. -/
def trimEnd (s : JsString) : JsString := (s.reverse.dropWhile isWhiteSpace).reverse

/-- The method `String.prototype.trim`. -/
def trim (s : JsString) : JsString := trimEnd (trimStart s)

/-- The method `String.prototype.slice(start, stop)` for non-negative integer arguments. -/
def slice (s : JsString) (start stop : Nat) : JsString := (s.take stop).drop start

/-! ## Values -/

/-- A thrown value; only the fact that something was thrown is observed. -/
abbrev JsErr := String

/-- JavaScript values reachable by the handlers: JSON values and `undefined`.
A number is kept as the decimal `(-1)^neg * mant * 10^exp` it was written as. -/
inductive JsVal where
  | undefined
  | null
  | bool (b : Bool)
  | num (neg : Bool) (mant : Nat) (exp : Int)
  | str (s : JsString)
  | arr (items : List JsVal)
  | obj (fields : List (JsString × JsVal))

/-- Whether the double nearest to `mant * 10^exp` is zero: the value is at most `2^-1075`. -/
def numIsZero (mant : Nat) (exp : Int) : Bool :=
  mant == 0 || (decide (exp < 0) && decide (mant * 2 ^ 1075 ≤ 10 ^ (-exp).toNat))

/-- The abstract operation ToBoolean. -/
def truthy : JsVal → Bool
  | .undefined => false
  | .null => false
  | .bool b => b
  | .num _ mant exp => !numIsZero mant exp
  | .str s => !s.isEmpty
  | .arr _ => true
  | .obj _ => true

/-- The operator `typeof`. -/
def typeOf : JsVal → String
  | .undefined => "undefined"
  | .null => "object"
  | .bool _ => "boolean"
  | .num _ _ _ => "number"
  | .str _ => "string"
  | .arr _ => "object"
  | .obj _ => "object"

/-- Whether a value is `undefined` or `null`. -/
def isNullish : JsVal → Bool
  | .undefined => true
  | .null => true
  | _ => false

/-- The value of an own data property of an object, `undefined` when there is none. -/
def lookupField (fields : List (JsString × JsVal)) (k : JsString) : JsVal :=
  match fields with
  | [] => .undefined
  | (k0, v0) :: rest => if k0 = k then v0 else lookupField rest k

/-- The read `v?.k` for a property name `k` that is neither an index nor defined by a
built-in prototype (every name the handlers read: message, sender, choices, content,
risk, summary, reason, advice). Primitives and arrays have no such property. -/
def optProp (v : JsVal) (k : JsString) : JsVal :=
  match v with
  | .obj fields => lookupField fields k
  | _ => .undefined

/-- The read `v.k` for the same names: it throws a TypeError on `undefined` and `null`. -/
def getProp (v : JsVal) (k : JsString) : Except JsErr JsVal :=
  if isNullish v then .error "TypeError: cannot read properties of undefined or null"
  else .ok (optProp v k)

/-- The read `v?.[i]` for an index `i`: an array element, a one-unit string, or the
property of an object named by the decimal numeral of `i`. -/
def optIndex (v : JsVal) (i : Nat) : JsVal :=
  match v with
  | .arr items => items.getD i .undefined
  | .str s =>
    match s.get? i with
    | some c => .str [c]
    | none => .undefined
  | .obj fields => lookupField fields (js (Nat.repr i))
  | _ => .undefined

/-- Whether an object has an own property named `k`. -/
def hasField (fields : List (JsString × JsVal)) (k : JsString) : Bool :=
  match fields with
  | [] => false
  | (k0, _) :: rest => if k0 = k then true else hasField rest k

mutual
/-- The abstract operation ToString; `numberToString` stands for `Number::toString`.
An object is converted by OrdinaryToPrimitive: without an own key `toString` the
inherited method answers "[object Object]"; with one, its value is not callable, the
`valueOf` that is tried next yields no primitive either, and a TypeError is thrown. -/
def toStr (numberToString : Bool → Nat → Int → JsString) : JsVal → Except JsErr JsString
  | .undefined => .ok (js "undefined")
  | .null => .ok (js "null")
  | .bool b => .ok (if b then js "true" else js "false")
  | .num neg mant exp => .ok (numberToString neg mant exp)
  | .str s => .ok s
  | .arr items => joinItems numberToString items
  | .obj fields =>
    if hasField fields (js "toString") then
      .error "TypeError: Cannot convert object to primitive value"
    else .ok (js "[object Object]")
/-- The method `Array.prototype.join` with the separator `,`, as ToString of an array
uses it: `undefined` and `null` elements are written as the empty string, the others are
converted by ToString from left to right, and the first throw ends the join. -/
def joinItems (numberToString : Bool → Nat → Int → JsString) :
    List JsVal → Except JsErr JsString
  | [] => .ok []
  | [v] => if isNullish v then .ok [] else toStr numberToString v
  | v :: w :: rest =>
    match (if isNullish v then .ok [] else toStr numberToString v) with
    | .error e => .error e
    | .ok first =>
      match joinItems numberToString (w :: rest) with
      | .error e => .error e
      | .ok others => .ok (first ++ 44 :: others)
end

/-! ## JSON.parse -/

/-- The outcome of a parsing function that runs on fuel. -/
inductive Parsed (α : Type) where
  | ok (value : α) (rest : List Nat)
  | syntaxError
  | outOfFuel

/-- JSON whitespace: tab, line feed, carriage return, space. -/
def isJsonWs (c : Nat) : Bool := c == 9 || c == 10 || c == 13 || c == 32

/-- Drops leading JSON whitespace. -/
def skipWs : List Nat → List Nat
  | [] => []
  | c :: cs => if isJsonWs c then skipWs cs else c :: cs

/-- The value of a hexadecimal digit. -/
def hexVal (c : Nat) : Option Nat :=
  if 48 ≤ c ∧ c ≤ 57 then some (c - 48)
  else if 97 ≤ c ∧ c ≤ 102 then some (c - 87)
  else if 65 ≤ c ∧ c ≤ 70 then some (c - 55)
  else none

/-- The code unit written by the four hexadecimal digits of a `\u` escape. -/
def hex4 (a b c d : Nat) : Option Nat :=
  match hexVal a, hexVal b, hexVal c, hexVal d with
  | some x, some y, some z, some w => some (((x * 16 + y) * 16 + z) * 16 + w)
  | _, _, _, _ => none

/-- The code unit written by a one-letter escape: quote, backslash, slash, b, f, n, r, t. -/
def simpleEscape (e : Nat) : Option Nat :=
  if e = 34 then some 34
  else if e = 92 then some 92
  else if e = 47 then some 47
  else if e = 98 then some 8
  else if e = 102 then some 12
  else if e = 110 then some 10
  else if e = 114 then some 13
  else if e = 116 then some 9
  else none

/-- A JSON string after its opening quote: the decoded string and the input after the
closing quote. `acc` holds the decoded units in reverse. -/
def parseStringBody : List Nat → List Nat → Option (JsString × List Nat)
  | [], _ => none
  | c :: rest, acc =>
    if c = 34 then some (acc.reverse, rest)
    else if c = 92 then
      match rest with
      | [] => none
      | e :: r =>
        if e = 117 then
          match r with
          | a :: b :: c2 :: d :: r2 =>
            match hex4 a b c2 d with
            | some u => parseStringBody r2 (u :: acc)
            | none => none
          | _ => none
        else
          match simpleEscape e with
          | some u => parseStringBody r (u :: acc)
          | none => none
    else if c < 32 then none
    else parseStringBody rest (c :: acc)

/-- A decimal digit. -/
def isDigit (c : Nat) : Bool := decide (48 ≤ c) && decide (c ≤ 57)

/-- Reads a run of digits onto `acc`: the number read, how many digits, the rest. -/
def takeDigits : List Nat → Nat → Nat → Nat × Nat × List Nat
  | [], acc, n => (acc, n, [])
  | c :: cs, acc, n =>
    if isDigit c then takeDigits cs (acc * 10 + (c - 48)) (n + 1) else (acc, n, c :: cs)

/-- The optional exponent part of a JSON number. -/
def parseExponent (cs : List Nat) : Option (Int × List Nat) :=
  match cs with
  | [] => some (0, [])
  | c :: r =>
    if c = 101 ∨ c = 69 then
      let signed : Bool × List Nat :=
        match r with
        | [] => (false, r)
        | s :: r0 => if s = 45 then (true, r0) else if s = 43 then (false, r0) else (false, r)
      match takeDigits signed.2 0 0 with
      | (e, n, r2) =>
        if n = 0 then none else some (if signed.1 then - (e : Int) else (e : Int), r2)
    else some (0, c :: r)

/-- The optional fraction part of a JSON number, read onto the integer part. -/
def parseFraction (cs : List Nat) (intPart : Nat) : Option (Nat × Nat × List Nat) :=
  match cs with
  | [] => some (intPart, 0, [])
  | c :: r =>
    if c = 46 then
      match takeDigits r intPart 0 with
      | (m, n, r2) => if n = 0 then none else some (m, n, r2)
    else some (intPart, 0, c :: r)

/-- A JSON number: optional minus, `0` or a digit run without leading zero, optional
fraction, optional exponent. -/
def parseNumber (cs : List Nat) : Option (JsVal × List Nat) :=
  let signed : Bool × List Nat :=
    match cs with
    | [] => (false, cs)
    | c :: r => if c = 45 then (true, r) else (false, cs)
  match signed.2 with
  | [] => none
  | d :: r1 =>
    if isDigit d then
      let intRes : Nat × List Nat :=
        if d = 48 then (0, r1)
        else match takeDigits (d :: r1) 0 0 with
          | (m, _, r) => (m, r)
      match parseFraction intRes.2 intRes.1 with
      | none => none
      | some (m, fracLen, r2) =>
        match parseExponent r2 with
        | none => none
        | some (e, r3) => some (JsVal.num signed.1 m (e - (fracLen : Int)), r3)
    else none

/-- The operation CreateDataProperty on a parsed object: a repeated key keeps its place
and takes the later value. -/
def setField (fields : List (JsString × JsVal)) (k : JsString) (v : JsVal) :
    List (JsString × JsVal) :=
  match fields with
  | [] => [(k, v)]
  | (k0, v0) :: rest => if k0 = k then (k0, v) :: rest else (k0, v0) :: setField rest k v

/-- Lifts a fuel-free parsing result. -/
def ofOption {α : Type} : Option (α × List Nat) → Parsed α
  | some (a, r) => .ok a r
  | none => .syntaxError

mutual
/-- A JSON value, after optional whitespace. -/
def parseValue : Nat → List Nat → Parsed JsVal
  | 0, _ => .outOfFuel
  | f + 1, cs =>
    match skipWs cs with
    | 110 :: 117 :: 108 :: 108 :: r => .ok .null r
    | 116 :: 114 :: 117 :: 101 :: r => .ok (.bool true) r
    | 102 :: 97 :: 108 :: 115 :: 101 :: r => .ok (.bool false) r
    | 34 :: r =>
      match parseStringBody r [] with
      | some (s, r1) => .ok (.str s) r1
      | none => .syntaxError
    | 91 :: r =>
      match skipWs r with
      | 93 :: r1 => .ok (.arr []) r1
      | _ => parseElements f r []
    | 123 :: r =>
      match skipWs r with
      | 125 :: r1 => .ok (.obj []) r1
      | _ => parseMembers f r []
    | cs1 => ofOption (parseNumber cs1)
/-- The elements of a non-empty JSON array, after its opening bracket. -/
def parseElements : Nat → List Nat → List JsVal → Parsed JsVal
  | 0, _, _ => .outOfFuel
  | f + 1, cs, acc =>
    match parseValue f cs with
    | .ok v r =>
      match skipWs r with
      | 44 :: r1 => parseElements f r1 (v :: acc)
      | 93 :: r1 => .ok (.arr (v :: acc).reverse) r1
      | _ => .syntaxError
    | .syntaxError => .syntaxError
    | .outOfFuel => .outOfFuel
/-- The members of a non-empty JSON object, after its opening brace. -/
def parseMembers : Nat → List Nat → List (JsString × JsVal) → Parsed JsVal
  | 0, _, _ => .outOfFuel
  | f + 1, cs, acc =>
    match skipWs cs with
    | 34 :: r =>
      match parseStringBody r [] with
      | some (k, r1) =>
        match skipWs r1 with
        | 58 :: r2 =>
          match parseValue f r2 with
          | .ok v r3 =>
            match skipWs r3 with
            | 44 :: r4 => parseMembers f r4 (setField acc k v)
            | 125 :: r4 => .ok (.obj (setField acc k v)) r4
            | _ => .syntaxError
          | .syntaxError => .syntaxError
          | .outOfFuel => .outOfFuel
        | _ => .syntaxError
      | none => .syntaxError
    | _ => .syntaxError
end

/-- The fuel given to the parser for a text: it is never exhausted (`parseText_fuel`). -/
def parseFuel (s : JsString) : Nat := 2 * s.length + 2

/-- A whole JSON text: one value between optional whitespace. -/
def parseText (s : JsString) : Parsed JsVal :=
  match parseValue (parseFuel s) s with
  | .ok v r => if skipWs r = [] then .ok v [] else .syntaxError
  | .syntaxError => .syntaxError
  | .outOfFuel => .outOfFuel

/-- The function `JSON.parse` on a string, without reviver: `none` is a thrown SyntaxError. -/
def jsonParseText (s : JsString) : Option JsVal :=
  match parseText s with
  | .ok v _ => some v
  | _ => none

/-- The call `JSON.parse(v)`: the argument is first converted by ToString; `none` is a
thrown exception, the TypeError of the conversion or the SyntaxError of the parse. -/
def jsonParse (numberToString : Bool → Nat → Int → JsString) (v : JsVal) : Option JsVal :=
  match toStr numberToString v with
  | .ok s => jsonParseText s
  | .error _ => none

/-! ## The runtime seen by the handlers -/

/-- What `res.status(code).json(body)` sent. -/
structure Sent where
  status : Nat
  body : JsVal

/-- The incoming request: `req.method`, and `req.body`, whose read may throw. -/
structure Request where
  method : JsString
  body : Except JsErr JsVal

/-- The arguments of one `fetch`; `body` is the object given to `JSON.stringify`. -/
structure FetchCall where
  url : JsString
  method : JsString
  headers : List (JsString × JsString)
  body : JsVal

/-- The resolved value of `fetch`: `ok`, and what `text()` and `json()` resolve to or
reject with. -/
structure FetchResponse where
  ok : Bool
  text : Except JsErr JsString
  json : Except JsErr JsVal

/-- The remote service: what `fetch` resolves to or rejects with for a given call. -/
abbrev Remote := FetchCall → Except JsErr FetchResponse

/-- The outcome of running a handler: the response sent, or the exception that escaped,
and the remote calls made. -/
abbrev Run := Except JsErr Sent × List FetchCall

/-- The read `process.env.OPENAI_API_KEY`: a string when set, `undefined` when unset. -/
def envValue : Option JsString → JsVal
  | some s => .str s
  | none => .undefined

/-- An object literal `{ error: msg }`. -/
def errorBody (msg : String) : JsVal := .obj [(js "error", .str (js msg))]

namespace Check

/-! ## api/check.js -/

/-- Lines 16-19: the sender line of the prompt. -/
def senderText (sender : JsVal) : JsString :=
  match sender with
  | .str s =>
    if truthy sender && typeOf sender == "string" && decide ((trim s).length > 0) then
      js "Sender: \"" ++ trim s ++ js "\"."
    else js "Sender: not provided."
  | _ => js "Sender: not provided."

/-- Lines 21-26: the template up to the sender line. -/
def templateHead : JsString :=
  js "\n" ++
  js "You are an AI assistant that evaluates whether messages are likely scams, especially targeting older adults.\n" ++
  js "\n" ++
  js "Here is the sender and message:\n" ++
  js "\n"

/-- Lines 26-29: the template between the sender line and the message. -/
def templateMiddle : JsString :=
  js "\n" ++
  js "\n" ++
  js "Message:\n" ++
  js "\""

/-- Lines 29-45: the template after the message. -/
def templateTail : JsString :=
  js "\"\n" ++
  js "\n" ++
  js "You must:\n" ++
  js "- Consider the content AND the sender.\n" ++
  js "- Look for signs of phishing, impersonation of banks, PayPal, Amazon, IRS, tech support, or family.\n" ++
  js "- Be conservative (better to call something risky than safe).\n" ++
  js "- Explain things in very simple language suitable for a senior.\n" ++
  js "\n" ++
  js "Respond in EXACTLY this JSON format, and only JSON, no extra text:\n" ++
  js "\n" ++
  js "\x7b\n" ++
  js "  \"risk\": \"high\" | \"medium\" | \"low\",\n" ++
  js "  \"summary\": \"one sentence summary of what the message is about\",\n" ++
  js "  \"reason\": \"short explanation in plain language suitable for a senior\",\n" ++
  js "  \"advice\": \"one or two short sentences telling the senior what to do next\"\n" ++
  js "\x7d\n" ++
  js "    "

/-- Lines 21-45: the template literal with both substitutions made, trimmed. -/
def prompt (senderText message : JsString) : JsString :=
  trim (templateHead ++ senderText ++ templateMiddle ++ message ++ templateTail)

/-- Lines 55-79: the arguments of the `fetch`. -/
def fetchCall (apiKey prompt : JsString) : FetchCall where
  url := js "https://api.openai.com/v1/chat/completions"
  method := js "POST"
  headers :=
    [(js "Content-Type", js "application/json"),
     (js "Authorization", js "Bearer " ++ apiKey)]
  body :=
    .obj
      [(js "model", .str (js "gpt-4.1-mini")),
       (js "messages",
        .arr
          [.obj
             [(js "role", .str (js "system")),
              (js "content",
               .str (js "You are a scam-detection assistant helping seniors avoid fraud. Always err on the side of caution."))],
           .obj [(js "role", .str (js "user")), (js "content", .str prompt)]]),
       (js "temperature", .num false 1 (-1))]

/-- Lines 103-121: the check of the parsed content and the verdict built from it. -/
def verdict (parsed : JsVal) : Except JsErr Sent :=
  if !truthy parsed then .ok ⟨500, errorBody "AI response missing required fields."⟩
  else
    match getProp parsed (js "risk"), getProp parsed (js "summary"),
      getProp parsed (js "reason"), getProp parsed (js "advice") with
    | .ok risk, .ok summary, .ok reason, .ok advice =>
      if !truthy risk || !truthy summary || !truthy reason || !truthy advice then
        .ok ⟨500, errorBody "AI response missing required fields."⟩
      else
        .ok ⟨200, .obj [(js "risk", risk), (js "summary", summary), (js "reason", reason),
          (js "advice", advice)]⟩
    | .error e, _, _, _ => .error e
    | _, .error e, _, _ => .error e
    | _, _, .error e, _ => .error e
    | _, _, _, .error e => .error e

/-- Line 91: `data?.choices?.[0]?.message?.content`. -/
def contentOf (data : JsVal) : JsVal :=
  optProp (optProp (optIndex (optProp data (js "choices")) 0) (js "message")) (js "content")

/-- Lines 81-121: what the handler does with the resolved `fetch`. -/
def relay (numberToString : Bool → Nat → Int → JsString) (response : FetchResponse) :
    Except JsErr Sent :=
  if !response.ok then
    match response.text with
    | .error e => .error e
    | .ok text =>
      .ok ⟨500, .obj [(js "error", .str (js "OpenAI API error.")),
        (js "details", .str (slice text 0 200))]⟩
  else
    match response.json with
    | .error e => .error e
    | .ok data =>
      match jsonParse numberToString (contentOf data) with
      | none => .ok ⟨500, errorBody "Failed to parse AI response JSON."⟩
      | some parsed => verdict parsed

/-- Lines 10-121: the body of the `try`. -/
def tryBlock (numberToString : Bool → Nat → Int → JsString) (apiKey : Option JsString)
    (remote : Remote) (req : Request) : Run :=
  match req.body with
  | .error e => (.error e, [])
  | .ok body =>
    let source := if truthy body then body else .obj []
    match getProp source (js "message"), getProp source (js "sender") with
    | .ok message, .ok sender =>
      if !truthy message || typeOf message != "string" then
        (.ok ⟨400, errorBody "Missing \"message\" in body."⟩, [])
      else
        let line := senderText sender
        match toStr numberToString message with
        | .error e => (.error e, [])
        | .ok shown =>
          let text := prompt line shown
          let key := envValue apiKey
          if !truthy key then (.ok ⟨500, errorBody "Server configuration error."⟩, [])
          else
            match toStr numberToString key with
            | .error e => (.error e, [])
            | .ok bearer =>
              let call := fetchCall bearer text
              match remote call with
              | .error e => (.error e, [call])
              | .ok response => (relay numberToString response, [call])
    | .error e, _ => (.error e, [])
    | _, .error e => (.error e, [])

/-- The function `handler` of api/check.js: the method gate, the `try` and its `catch`. -/
def handler (numberToString : Bool → Nat → Int → JsString) (apiKey : Option JsString)
    (remote : Remote) (req : Request) : Run :=
  if req.method ≠ js "POST" then (.ok ⟨405, errorBody "Method not allowed, use POST."⟩, [])
  else
    match tryBlock numberToString apiKey remote req with
    | (.ok sent, calls) => (.ok sent, calls)
    | (.error _, calls) => (.ok ⟨500, errorBody "Unexpected server error."⟩, calls)

end Check

namespace Test

/-! ## api/test.js -/

/-- The function `handler` of api/test.js. -/
def handler (apiKey : Option JsString) (_req : Request) : Run :=
  let hasKey := !(!truthy (envValue apiKey))
  (.ok ⟨200, .obj [(js "hasKey", .bool hasKey)]⟩, [])

end Test

/-! ## Vocabulary of the statements -/

namespace Check

/-- The call made for a request body whose message is the string `m`, under key `k`. -/
def callFor (k : JsString) (body : JsVal) (m : JsString) : FetchCall :=
  fetchCall k (prompt (senderText (optProp body (js "sender"))) m)

/-- The `catch` of lines 122-125 applied to the outcome of the `try`. -/
def caught (r : Except JsErr Sent) : Sent :=
  match r with
  | .ok sent => sent
  | .error _ => ⟨500, errorBody "Unexpected server error."⟩

/-- The fields risk, summary, reason and advice of a parsed value are all truthy. -/
def allPresent (p : JsVal) : Bool :=
  truthy (optProp p (js "risk")) && truthy (optProp p (js "summary")) &&
  truthy (optProp p (js "reason")) && truthy (optProp p (js "advice"))

/-- The object with exactly the four verdict fields, each taken from `p`. -/
def verdictOf (p : JsVal) : JsVal :=
  .obj [(js "risk", optProp p (js "risk")), (js "summary", optProp p (js "summary")),
    (js "reason", optProp p (js "reason")), (js "advice", optProp p (js "advice"))]

/-- The request body is absent, has no message field, has a message that is not a
string, or has the empty string as message. -/
def MessageMissing (req : Request) : Prop :=
  ∃ body, req.body = .ok body ∧
    (isNullish body = true ∨ optProp body (js "message") = .undefined ∨
      typeOf (optProp body (js "message")) ≠ "string" ∨
      optProp body (js "message") = .str [])

/-- The Verdict of the data model: risk is one of the strings high, medium, low, and
summary, reason and advice are non-empty strings. -/
def IsVerdict (body : JsVal) : Prop :=
  (optProp body (js "risk") = .str (js "high") ∨ optProp body (js "risk") = .str (js "medium") ∨
    optProp body (js "risk") = .str (js "low")) ∧
  (∃ s, optProp body (js "summary") = .str s ∧ s ≠ []) ∧
  (∃ s, optProp body (js "reason") = .str s ∧ s ≠ []) ∧
  (∃ s, optProp body (js "advice") = .str s ∧ s ≠ [])

/-- The sender line as described: the stripped sender between quotes when the sender is a
string with a non-empty stripped form, and "not provided" otherwise. -/
def senderLine (sender : JsVal) : JsString :=
  match sender with
  | .str s =>
    if trim s ≠ [] then js "Sender: \"" ++ trim s ++ js "\"." else js "Sender: not provided."
  | _ => js "Sender: not provided."

/-- The fixed text of the prompt before the sender line. -/
def promptOpening : JsString :=
  js "You are an AI assistant that evaluates whether messages are likely scams, especially targeting older adults.\n" ++
  js "\n" ++
  js "Here is the sender and message:\n" ++
  js "\n"

/-- The fixed text of the prompt between the sender line and the quoted message. -/
def promptBridge : JsString := js "\n\nMessage:\n"

/-- The fixed text of the prompt after the quoted message. -/
def promptClosing : JsString :=
  js "\n" ++
  js "\n" ++
  js "You must:\n" ++
  js "- Consider the content AND the sender.\n" ++
  js "- Look for signs of phishing, impersonation of banks, PayPal, Amazon, IRS, tech support, or family.\n" ++
  js "- Be conservative (better to call something risky than safe).\n" ++
  js "- Explain things in very simple language suitable for a senior.\n" ++
  js "\n" ++
  js "Respond in EXACTLY this JSON format, and only JSON, no extra text:\n" ++
  js "\n" ++
  js "\x7b\n" ++
  js "  \"risk\": \"high\" | \"medium\" | \"low\",\n" ++
  js "  \"summary\": \"one sentence summary of what the message is about\",\n" ++
  js "  \"reason\": \"short explanation in plain language suitable for a senior\",\n" ++
  js "  \"advice\": \"one or two short sentences telling the senior what to do next\"\n" ++
  js "\x7d"

/-- The content of the user message inside the body of a call. -/
def userContent (call : FetchCall) : JsVal :=
  optProp (optIndex (optProp call.body (js "messages")) 1) (js "content")

end Check

/-! ## Sample runs -/

namespace Sample

/-- A stand-in for `Number::toString`; no sample run converts a number to a string. -/
def numberToString : Bool → Nat → Int → JsString := fun _ _ _ => js "0"

/-- A configured credential. -/
def apiKey : JsString := js "sk-test"

/-- The body of the scenario request: a message and a sender. -/
def requestBody : JsVal :=
  .obj [(js "message", .str (js "Your bank account is suspended, click here")),
    (js "sender", .str (js "Bank Alert"))]

/-- The request of the scenario. -/
def request : Request := ⟨js "POST", .ok requestBody⟩

/-- The message of the scenario request. -/
def message : JsString := js "Your bank account is suspended, click here"

/-- The call the scenario request leads to. -/
def call : FetchCall := Check.callFor apiKey requestBody message

/-- A completion envelope around a content value, with the metadata the service adds. -/
def envelope (content : JsVal) : JsVal :=
  .obj [(js "id", .str (js "chatcmpl-1")),
    (js "choices",
     .arr [.obj [(js "index", .num false 0 0),
       (js "message", .obj [(js "role", .str (js "assistant")), (js "content", content)]),
       (js "finish_reason", .str (js "stop"))]]),
    (js "usage", .obj [(js "total_tokens", .num false 321 0)])]

/-- A successful reply carrying a content value. -/
def reply (content : JsVal) : FetchResponse :=
  ⟨true, .error "body stream already read", .ok (envelope content)⟩

/-- The content of the scenario: a complete verdict with risk high. -/
def verdictText : JsString :=
  js "\x7b\"risk\":\"high\",\"summary\":\"Claims bank account suspension\",\"reason\":\"Urgent bank messages with links are a common scam tactic\",\"advice\":\"Do not click the link; call your bank directly using the number on your card.\"\x7d"

/-- The value the scenario content parses to. -/
def verdictValue : JsVal :=
  .obj [(js "risk", .str (js "high")),
    (js "summary", .str (js "Claims bank account suspension")),
    (js "reason", .str (js "Urgent bank messages with links are a common scam tactic")),
    (js "advice",
     .str (js "Do not click the link; call your bank directly using the number on your card."))]

/-- A content whose risk is none of the three levels and whose advice is a list. -/
def looseText : JsString :=
  js "\x7b\"risk\":\"critical\",\"summary\":\"Claims bank account suspension\",\"reason\":\"Looks like phishing\",\"advice\":[\"Do not click\",\"Call your bank\"]\x7d"

/-- The value the loose content parses to. -/
def looseValue : JsVal :=
  .obj [(js "risk", .str (js "critical")),
    (js "summary", .str (js "Claims bank account suspension")),
    (js "reason", .str (js "Looks like phishing")),
    (js "advice", .arr [.str (js "Do not click"), .str (js "Call your bank")])]

/-- An error reply of the remote service with a raw body. -/
def errorReply (raw : JsString) : FetchResponse :=
  ⟨false, .ok raw, .error "Unexpected token"⟩

/-- A remote service that resolves every call with the same response. -/
def remote (response : FetchResponse) : Remote := fun _ => .ok response

/-- A remote service that cannot be reached: every call rejects. -/
def offline : Remote := fun _ => .error "fetch failed"

/-- A raw error body of 250 code units. -/
def longText : JsString := List.replicate 250 120

/-- A GET request without body. -/
def getRequest : Request := ⟨js "GET", .ok .undefined⟩

/-- A POST request with the empty object as body. -/
def emptyRequest : Request := ⟨js "POST", .ok (.obj [])⟩

/-- A POST request whose body cannot be read. -/
def brokenRequest : Request := ⟨js "POST", .error "Invalid JSON"⟩

end Sample

/-! ## Reading values -/

theorem isNullish_of_truthy {v : JsVal} (h : truthy v = true) : isNullish v = false := by
  cases v <;> simp_all [truthy, isNullish]

theorem getProp_of_truthy {v : JsVal} (h : truthy v = true) (k : JsString) :
    getProp v k = .ok (optProp v k) := by
  simp [getProp, isNullish_of_truthy h]

theorem getProp_emptyObj (k : JsString) : getProp (.obj []) k = .ok .undefined := by
  simp [getProp, isNullish, optProp, lookupField]

theorem optProp_of_not_truthy {v : JsVal} (h : truthy v = false) (k : JsString) :
    optProp v k = .undefined := by
  cases v <;> simp_all [optProp, truthy]

theorem optProp_str_truthy {v : JsVal} {k m : JsString} (h : optProp v k = .str m) :
    truthy v = true := by
  cases v <;> simp_all [optProp, truthy]

theorem slice_zero (s : JsString) (n : Nat) : slice s 0 n = s.take n := by
  simp [slice]

set_option maxRecDepth 100000 in
/-- The call `JSON.parse(undefined)` throws: the text "undefined" is not JSON. -/
theorem jsonParse_undefined (nts : Bool → Nat → Int → JsString) :
    jsonParse nts .undefined = none := rfl

set_option maxRecDepth 100000 in
/-- The call `JSON.parse(null)` returns null: the text "null" is JSON. -/
theorem jsonParse_null (nts : Bool → Nat → Int → JsString) :
    jsonParse nts .null = some .null := rfl

set_option maxRecDepth 100000 in
/-- An object with an own key `toString` cannot be converted to a string, alone or as an
element of an array: `JSON.parse` of it throws. -/
theorem jsonParse_toString_key (nts : Bool → Nat → Int → JsString) (v : JsVal)
    (s t : JsString) :
    jsonParse nts (.obj [(js "toString", v)]) = none ∧
      jsonParse nts (.arr [.str s, .obj [(js "toString", v)], .str t]) = none :=
  ⟨rfl, rfl⟩

namespace Check

/-! ## The paths of the scam-check handler -/

theorem handler_post (nts : Bool → Nat → Int → JsString) (apiKey : Option JsString)
    (remote : Remote) (req : Request) (hm : req.method = js "POST") :
    handler nts apiKey remote req =
      (.ok (caught (tryBlock nts apiKey remote req).1), (tryBlock nts apiKey remote req).2) := by
  unfold handler
  rw [if_neg (by simp [hm])]
  rcases h : tryBlock nts apiKey remote req with ⟨r, calls⟩
  cases r <;> simp [caught]

theorem handler_not_post (nts : Bool → Nat → Int → JsString) (apiKey : Option JsString)
    (remote : Remote) (req : Request) (hm : req.method ≠ js "POST") :
    handler nts apiKey remote req =
      (.ok ⟨405, errorBody "Method not allowed, use POST."⟩, []) := by
  unfold handler
  rw [if_pos hm]

theorem tryBlock_throwing_body (nts : Bool → Nat → Int → JsString)
    (apiKey : Option JsString) (remote : Remote) (req : Request) (e : JsErr)
    (hb : req.body = .error e) :
    tryBlock nts apiKey remote req = (.error e, []) := by
  unfold tryBlock
  simp only [hb]

theorem tryBlock_invalid (nts : Bool → Nat → Int → JsString) (apiKey : Option JsString)
    (remote : Remote) (req : Request) (body : JsVal)
    (hb : req.body = .ok body)
    (hmsg : ∀ m, optProp body (js "message") = .str m → m = []) :
    tryBlock nts apiKey remote req =
      (.ok ⟨400, errorBody "Missing \"message\" in body."⟩, []) := by
  unfold tryBlock
  simp only [hb]
  cases ht : truthy body
  · simp only [Bool.false_eq_true, if_false, getProp_emptyObj]
    simp [truthy]
  · simp only [if_true, getProp_of_truthy ht]
    cases hv : optProp body (js "message") with
    | str m => simp [truthy, typeOf, hmsg m hv]
    | _ => simp [truthy, typeOf]

theorem tryBlock_no_key (nts : Bool → Nat → Int → JsString) (apiKey : Option JsString)
    (remote : Remote) (req : Request) (body : JsVal) (m : JsString)
    (hb : req.body = .ok body) (hmsg : optProp body (js "message") = .str m)
    (hne : m ≠ []) (hk : apiKey = none ∨ apiKey = some []) :
    tryBlock nts apiKey remote req =
      (.ok ⟨500, errorBody "Server configuration error."⟩, []) := by
  have ht : truthy body = true := optProp_str_truthy hmsg
  unfold tryBlock
  simp only [hb, ht, if_true, getProp_of_truthy ht, hmsg]
  rcases hk with hk | hk <;> simp [truthy, typeOf, hne, hk, envValue, toStr]

theorem tryBlock_valid (nts : Bool → Nat → Int → JsString) (k : JsString)
    (remote : Remote) (req : Request) (body : JsVal) (m : JsString)
    (hb : req.body = .ok body) (hmsg : optProp body (js "message") = .str m)
    (hne : m ≠ []) (hk : k ≠ []) :
    tryBlock nts (some k) remote req =
      (match remote (callFor k body m) with
        | .error e => .error e
        | .ok response => relay nts response, [callFor k body m]) := by
  have ht : truthy body = true := optProp_str_truthy hmsg
  unfold tryBlock
  simp only [hb, ht, if_true, getProp_of_truthy ht, hmsg]
  simp [truthy, typeOf, hne, hk, envValue, toStr, callFor]
  cases remote (fetchCall k (prompt (senderText (optProp body (js "sender"))) m)) <;> rfl

theorem message_cases (body : JsVal) :
    (∀ m, optProp body (js "message") = .str m → m = []) ∨
      ∃ m, optProp body (js "message") = .str m ∧ m ≠ [] := by
  cases hv : optProp body (js "message") with
  | str m =>
    by_cases hm : m = []
    · left; intro m2 h2; cases h2; exact hm
    · right; exact ⟨m, rfl, hm⟩
  | _ => left; intro m h; cases h

theorem key_cases (apiKey : Option JsString) :
    (apiKey = none ∨ apiKey = some []) ∨ ∃ k, apiKey = some k ∧ k ≠ [] := by
  cases apiKey with
  | none => left; left; rfl
  | some k =>
    by_cases hk : k = []
    · left; right; rw [hk]
    · right; exact ⟨k, rfl, hk⟩

theorem verdict_eq (p : JsVal) :
    verdict p =
      .ok (if allPresent p = true then ⟨200, verdictOf p⟩
        else ⟨500, errorBody "AI response missing required fields."⟩) := by
  unfold verdict
  cases ht : truthy p
  · simp [allPresent, optProp_of_not_truthy ht, truthy]
  · simp only [Bool.not_true, Bool.false_eq_true, if_false, getProp_of_truthy ht]
    by_cases h : allPresent p = true
    · have h2 := h
      simp only [allPresent, Bool.and_eq_true] at h2
      obtain ⟨⟨⟨h1, h2⟩, h3⟩, h4⟩ := h2
      simp [h, h1, h2, h3, h4, verdictOf]
    · have h2 := h
      simp only [allPresent, Bool.and_eq_true, not_and, Bool.not_eq_true] at h2
      simp only [h, if_false]
      cases h1 : truthy (optProp p (js "risk")) <;>
      cases h3 : truthy (optProp p (js "summary")) <;>
      cases h4 : truthy (optProp p (js "reason")) <;>
      cases h5 : truthy (optProp p (js "advice")) <;> simp_all

theorem relay_failure (nts : Bool → Nat → Int → JsString) (response : FetchResponse)
    (t : JsString) (hok : response.ok = false) (ht : response.text = .ok t) :
    relay nts response =
      .ok ⟨500, .obj [(js "error", .str (js "OpenAI API error.")),
        (js "details", .str (t.take 200))]⟩ := by
  simp [relay, hok, ht, slice_zero]

theorem relay_success (nts : Bool → Nat → Int → JsString) (response : FetchResponse)
    (data : JsVal) (hok : response.ok = true) (hj : response.json = .ok data) :
    relay nts response =
      match jsonParse nts (contentOf data) with
      | none => .ok ⟨500, errorBody "Failed to parse AI response JSON."⟩
      | some parsed => verdict parsed := by
  simp [relay, hok, hj]

theorem relay_200 (nts : Bool → Nat → Int → JsString) (response : FetchResponse)
    (sent : Sent) (h : relay nts response = .ok sent) :
    (sent.status = 500 ∧ ∀ p, sent.body ≠ verdictOf p) ∨
      (sent.status = 200 ∧ response.ok = true ∧
        ∃ data p, response.json = .ok data ∧ jsonParse nts (contentOf data) = some p ∧
          allPresent p = true ∧ sent.body = verdictOf p) := by
  cases hok : response.ok
  · cases ht : response.text with
    | error e => simp [relay, hok, ht] at h
    | ok t =>
      rw [relay_failure nts response t hok ht] at h
      cases h
      left
      refine ⟨rfl, ?_⟩
      intro p hp
      simp [verdictOf] at hp
  · cases hj : response.json with
    | error e => simp [relay, hok, hj] at h
    | ok data =>
      rw [relay_success nts response data hok hj] at h
      cases hp : jsonParse nts (contentOf data) with
      | none =>
        simp only [hp] at h
        cases h
        left
        refine ⟨rfl, ?_⟩
        intro p hp
        simp [verdictOf, errorBody] at hp
      | some p =>
        simp only [hp, verdict_eq] at h
        by_cases hall : allPresent p = true
        · simp only [hall, if_true] at h
          cases h
          right
          exact ⟨rfl, rfl, data, p, rfl, hp, hall, rfl⟩
        · simp only [hall, if_false] at h
          cases h
          left
          refine ⟨rfl, ?_⟩
          intro p hp
          simp [verdictOf, errorBody] at hp

theorem contentOf_absent (data : JsVal)
    (h : optProp data (js "choices") = .undefined ∨
      optIndex (optProp data (js "choices")) 0 = .undefined ∨
      optProp (optIndex (optProp data (js "choices")) 0) (js "message") = .undefined ∨
      contentOf data = .undefined) :
    contentOf data = .undefined := by
  unfold contentOf
  rcases h with h | h | h | h
  · rw [h]; rfl
  · rw [h]; rfl
  · rw [h]; rfl
  · exact h

set_option maxRecDepth 100000 in
/-- A content that is present with the value null is parsed, to null, and fails the field
check rather than the parse. -/
theorem relay_null_content (nts : Bool → Nat → Int → JsString) (response : FetchResponse)
    (data : JsVal) (hok : response.ok = true) (hj : response.json = .ok data)
    (hc : contentOf data = .null) :
    relay nts response = .ok ⟨500, errorBody "AI response missing required fields."⟩ := by
  rw [relay_success nts response data hok hj, hc, jsonParse_null]
  rfl

end Check

namespace Check

/-! ## The contract of the scam-check handler -/

/-- C4. Method gating: a request whose method is not exactly POST is answered with
status 405 and the body with the single field error "Method not allowed, use POST.",
whatever its body, the credential and the remote service; no remote call is made. -/
theorem handler_method_not_allowed (nts : Bool → Nat → Int → JsString)
    (apiKey : Option JsString) (remote : Remote) (req : Request)
    (hm : req.method ≠ js "POST") :
    handler nts apiKey remote req =
      (.ok ⟨405, .obj [(js "error", .str (js "Method not allowed, use POST."))]⟩, []) := by
  rw [handler_not_post nts apiKey remote req hm]
  rfl

/-- C3. Message validation: a POST request is answered with status 400 and the body with
the single field error "Missing "message" in body." exactly when its body is absent, has
no message field, has a message that is not a string, or has the empty message; the
outcome is then the same for every credential and every remote service, and no remote
call is made. A non-empty message, whitespace-only included, is never answered so. -/
theorem handler_message_validation (nts : Bool → Nat → Int → JsString)
    (apiKey : Option JsString) (remote : Remote) (req : Request)
    (hm : req.method = js "POST") :
    ((handler nts apiKey remote req).1 =
        .ok ⟨400, .obj [(js "error", .str (js "Missing \"message\" in body."))]⟩ ↔
      MessageMissing req) ∧
    (MessageMissing req →
      handler nts apiKey remote req =
        (.ok ⟨400, .obj [(js "error", .str (js "Missing \"message\" in body."))]⟩, [])) ∧
    (∀ body m, req.body = .ok body → optProp body (js "message") = .str m → m ≠ [] →
      (handler nts apiKey remote req).1 ≠
        .ok ⟨400, .obj [(js "error", .str (js "Missing \"message\" in body."))]⟩) := by
  have hmiss : MessageMissing req →
      handler nts apiKey remote req =
        (.ok ⟨400, .obj [(js "error", .str (js "Missing \"message\" in body."))]⟩, []) := by
    rintro ⟨body, hb, hcase⟩
    rw [handler_post nts apiKey remote req hm, tryBlock_invalid nts apiKey remote req body hb]
    · rfl
    · intro m hmsg
      rcases hcase with h | h | h | h
      · cases body <;> simp_all [isNullish, optProp]
      · rw [hmsg] at h; cases h
      · rw [hmsg] at h; simp [typeOf] at h
      · rw [hmsg] at h; cases h; rfl
  have hvalid : ∀ body m, req.body = .ok body → optProp body (js "message") = .str m →
      m ≠ [] →
      (handler nts apiKey remote req).1 ≠
        .ok ⟨400, .obj [(js "error", .str (js "Missing \"message\" in body."))]⟩ := by
    intro body m hb hmsg hne h
    rw [handler_post nts apiKey remote req hm] at h
    simp only [Except.ok.injEq] at h
    rcases key_cases apiKey with hk | ⟨k, hk, hkne⟩
    · rw [tryBlock_no_key nts apiKey remote req body m hb hmsg hne hk] at h
      simp [caught] at h
    · rw [hk, tryBlock_valid nts k remote req body m hb hmsg hne hkne] at h
      cases hr : remote (callFor k body m) with
      | error e => simp [hr, caught] at h
      | ok response =>
        simp only [hr] at h
        cases hrel : relay nts response with
        | error e => simp [hrel, caught] at h
        | ok sent =>
          simp only [hrel, caught] at h
          rcases relay_200 nts response sent hrel with ⟨hs, _⟩ | ⟨hs, _⟩ <;>
            simp [h] at hs
  refine ⟨⟨?_, fun h => by rw [hmiss h]⟩, hmiss, hvalid⟩
  intro h
  cases hb : req.body with
  | error e =>
    rw [handler_post nts apiKey remote req hm,
      tryBlock_throwing_body nts apiKey remote req e hb] at h
    simp [caught] at h
  | ok body =>
    refine ⟨body, hb, ?_⟩
    cases hv : optProp body (js "message") with
    | str m =>
      by_cases hne : m = []
      · right; right; right; rw [hne]
      · exact absurd h (hvalid body m hb hv hne)
    | undefined => right; left; rfl
    | _ => right; right; left; simp [typeOf]

/-- C5. Credential check: for a POST request whose message is a non-empty string, when
the credential is unset or empty the answer is status 500 with the body with the single
field error "Server configuration error.", whatever the remote service would do; no
remote call is made. -/
theorem handler_missing_credential (nts : Bool → Nat → Int → JsString)
    (apiKey : Option JsString) (remote : Remote) (req : Request) (body : JsVal)
    (m : JsString) (hm : req.method = js "POST") (hb : req.body = .ok body)
    (hmsg : optProp body (js "message") = .str m) (hne : m ≠ [])
    (hk : apiKey = none ∨ apiKey = some []) :
    handler nts apiKey remote req =
      (.ok ⟨500, .obj [(js "error", .str (js "Server configuration error."))]⟩, []) := by
  rw [handler_post nts apiKey remote req hm,
    tryBlock_no_key nts apiKey remote req body m hb hmsg hne hk]
  rfl

/-- C6. Upstream error relay: for a POST request with a valid message and a present
credential, when the remote call resolves with a non-success status and raw body text
`t`, the answer is status 500 with the body of the two fields error "OpenAI API error."
and details `d`, where `d` is the first `min 200 (length t)` code units of `t`: a
leading part of `t`, at most 200 long, and `t` itself when `t` is at most 200 long. -/
theorem handler_upstream_error (nts : Bool → Nat → Int → JsString) (k : JsString)
    (remote : Remote) (req : Request) (body : JsVal) (m : JsString)
    (response : FetchResponse) (t : JsString)
    (hm : req.method = js "POST") (hb : req.body = .ok body)
    (hmsg : optProp body (js "message") = .str m) (hne : m ≠ []) (hk : k ≠ [])
    (hr : remote (callFor k body m) = .ok response) (hok : response.ok = false)
    (ht : response.text = .ok t) :
    ∃ d : JsString,
      handler nts (some k) remote req =
        (.ok ⟨500, .obj [(js "error", .str (js "OpenAI API error.")),
          (js "details", .str d)]⟩, [callFor k body m]) ∧
      d = t.take (min 200 t.length) ∧ d.length = min 200 t.length ∧ d.length ≤ 200 ∧
      (∃ rest, t = d ++ rest) ∧ (t.length ≤ 200 → d = t) := by
  refine ⟨t.take 200, ?_, ?_, ?_, ?_, ?_, ?_⟩
  · rw [handler_post nts (some k) remote req hm,
      tryBlock_valid nts k remote req body m hb hmsg hne hk]
    simp only [hr, relay_failure nts response t hok ht]
    rfl
  · rcases Nat.le_total 200 t.length with h | h
    · rw [Nat.min_eq_left h]
    · rw [Nat.min_eq_right h, List.take_of_length_le h, List.take_length]
  · simp [List.length_take]
  · simp [List.length_take]
  · exact ⟨t.drop 200, (List.take_append_drop 200 t).symm⟩
  · intro h
    exact List.take_of_length_le h

/-- C7, as amended. Malformed upstream content: for a POST request with a valid message
and a present credential, when the remote call succeeds and reading the content of the
first completion choice yields undefined (no choices, no first choice, no message in it
or no content in the message) or the content is a string that is not valid JSON, the
answer is status 500 with the body with the single field error "Failed to parse AI
response JSON.", which has none of the verdict fields; when the content is null it
parses as JSON null and the answer is status 500 with the body with the single field
error "AI response missing required fields.". -/
theorem handler_malformed_content (nts : Bool → Nat → Int → JsString) (k : JsString)
    (remote : Remote) (req : Request) (body : JsVal) (m : JsString)
    (response : FetchResponse) (data : JsVal)
    (hm : req.method = js "POST") (hb : req.body = .ok body)
    (hmsg : optProp body (js "message") = .str m) (hne : m ≠ []) (hk : k ≠ [])
    (hr : remote (callFor k body m) = .ok response) (hok : response.ok = true)
    (hj : response.json = .ok data) :
    (((optProp data (js "choices") = .undefined ∨
          optIndex (optProp data (js "choices")) 0 = .undefined ∨
          optProp (optIndex (optProp data (js "choices")) 0) (js "message") = .undefined ∨
          contentOf data = .undefined) ∨
        ∃ s, contentOf data = .str s ∧ jsonParseText s = none) →
      handler nts (some k) remote req =
        (.ok ⟨500, .obj [(js "error", .str (js "Failed to parse AI response JSON."))]⟩,
          [callFor k body m])) ∧
    (contentOf data = .null →
      handler nts (some k) remote req =
        (.ok ⟨500, .obj [(js "error", .str (js "AI response missing required fields."))]⟩,
          [callFor k body m])) := by
  have hrun : handler nts (some k) remote req =
      (.ok (caught (relay nts response)), [callFor k body m]) := by
    rw [handler_post nts (some k) remote req hm,
      tryBlock_valid nts k remote req body m hb hmsg hne hk]
    simp only [hr]
  refine ⟨?_, ?_⟩
  · intro hc
    have hp : jsonParse nts (contentOf data) = none := by
      rcases hc with h | ⟨s, h, hs⟩
      · rw [contentOf_absent data h]; rfl
      · rw [h]; simpa [jsonParse, toStr] using hs
    rw [hrun, relay_success nts response data hok hj, hp]
    rfl
  · intro hc
    rw [hrun, relay_null_content nts response data hok hj hc]
    rfl

/-- C1. Response validation: for a POST request with a valid message and a present
credential, when the remote call succeeds and the content of the first choice parses as
JSON to `p`, the answer is a function of `p` alone: status 200 with the body of exactly
the four fields risk, summary, reason, advice, each that field of `p`, when all four are
truthy in `p`; status 500 with the body with the single field error "AI response missing
required fields." otherwise, in particular when `p` is not a plain object. -/
theorem handler_response_validation (nts : Bool → Nat → Int → JsString) (k : JsString)
    (remote : Remote) (req : Request) (body : JsVal) (m : JsString)
    (response : FetchResponse) (data p : JsVal)
    (hm : req.method = js "POST") (hb : req.body = .ok body)
    (hmsg : optProp body (js "message") = .str m) (hne : m ≠ []) (hk : k ≠ [])
    (hr : remote (callFor k body m) = .ok response) (hok : response.ok = true)
    (hj : response.json = .ok data) (hp : jsonParse nts (contentOf data) = some p) :
    (allPresent p = true →
      handler nts (some k) remote req =
        (.ok ⟨200, .obj [(js "risk", optProp p (js "risk")),
          (js "summary", optProp p (js "summary")), (js "reason", optProp p (js "reason")),
          (js "advice", optProp p (js "advice"))]⟩, [callFor k body m])) ∧
    (allPresent p = false →
      handler nts (some k) remote req =
        (.ok ⟨500, .obj [(js "error", .str (js "AI response missing required fields."))]⟩,
          [callFor k body m])) ∧
    ((∀ fields, p ≠ .obj fields) → allPresent p = false) := by
  have hrun : handler nts (some k) remote req =
      (.ok (if allPresent p = true then ⟨200, verdictOf p⟩
        else ⟨500, errorBody "AI response missing required fields."⟩),
        [callFor k body m]) := by
    rw [handler_post nts (some k) remote req hm,
      tryBlock_valid nts k remote req body m hb hmsg hne hk]
    simp only [hr, relay_success nts response data hok hj, hp, verdict_eq]
    rfl
  refine ⟨?_, ?_, ?_⟩
  · intro h
    rw [hrun, if_pos h]
    rfl
  · intro h
    rw [hrun, if_neg (by simp [h])]
    rfl
  · intro h
    cases p with
    | obj fields => exact absurd rfl (h fields)
    | _ => simp [allPresent, optProp, truthy]

/-- C2, as amended. Whenever the scam-check handler answers with status 200, one remote
call was made, it succeeded, its first choice's content parsed as JSON to some `p`, and
the body is the object of exactly the four fields risk, summary, reason, advice of `p`,
each of them truthy. Nothing restricts risk to the three levels or the fields to
strings. -/
theorem handler_ok_is_checked (nts : Bool → Nat → Int → JsString)
    (apiKey : Option JsString) (remote : Remote) (req : Request) (sent : Sent)
    (h : (handler nts apiKey remote req).1 = .ok sent) (hs : sent.status = 200) :
    ∃ call response data p,
      (handler nts apiKey remote req).2 = [call] ∧ remote call = .ok response ∧
      response.ok = true ∧ response.json = .ok data ∧
      jsonParse nts (contentOf data) = some p ∧
      truthy (optProp p (js "risk")) = true ∧ truthy (optProp p (js "summary")) = true ∧
      truthy (optProp p (js "reason")) = true ∧ truthy (optProp p (js "advice")) = true ∧
      sent.body =
        .obj [(js "risk", optProp p (js "risk")), (js "summary", optProp p (js "summary")),
          (js "reason", optProp p (js "reason")), (js "advice", optProp p (js "advice"))] := by
  by_cases hm : req.method = js "POST"
  swap
  · rw [handler_not_post nts apiKey remote req hm] at h
    cases h
    simp at hs
  rw [handler_post nts apiKey remote req hm] at h ⊢
  simp only [Except.ok.injEq] at h
  cases hb : req.body with
  | error e =>
    rw [tryBlock_throwing_body nts apiKey remote req e hb] at h
    rw [← h] at hs
    simp [caught] at hs
  | ok body =>
    rcases message_cases body with hmsg | ⟨m, hmsg, hne⟩
    · rw [tryBlock_invalid nts apiKey remote req body hb hmsg] at h
      rw [← h] at hs
      simp [caught] at hs
    · rcases key_cases apiKey with hk | ⟨k, hk, hkne⟩
      · rw [tryBlock_no_key nts apiKey remote req body m hb hmsg hne hk] at h
        rw [← h] at hs
        simp [caught] at hs
      · subst hk
        rw [tryBlock_valid nts k remote req body m hb hmsg hne hkne] at h ⊢
        cases hr : remote (callFor k body m) with
        | error e =>
          simp only [hr, caught] at h
          rw [← h] at hs
          simp at hs
        | ok response =>
          simp only [hr] at h
          cases hrel : relay nts response with
          | error e =>
            simp only [hrel, caught] at h
            rw [← h] at hs
            simp at hs
          | ok sent2 =>
            simp only [hrel, caught] at h
            subst h
            rcases relay_200 nts response sent2 hrel with ⟨h5, _⟩ | ⟨_, hok, data, p, hj, hp, hall, hbody⟩
            · rw [h5] at hs
              simp at hs
            · simp only [allPresent, Bool.and_eq_true] at hall
              obtain ⟨⟨⟨h1, h2⟩, h3⟩, h4⟩ := hall
              exact ⟨callFor k body m, response, data, p, rfl, hr, hok, hj, hp, h1, h2, h3,
                h4, hbody⟩

/-- C8. Catch-all: the handler always ends with a response and lets no exception out;
for a POST request every exception raised inside the guarded sequence becomes status 500
with the body with the single field error "Unexpected server error.": a throwing read
of the request body, a rejected remote call, a rejected read of the error text and a
rejected decoding of the reply. -/
theorem handler_catch_all (nts : Bool → Nat → Int → JsString)
    (apiKey : Option JsString) (remote : Remote) (req : Request) :
    (∃ sent, (handler nts apiKey remote req).1 = .ok sent) ∧
    (req.method = js "POST" →
      (∀ e, (tryBlock nts apiKey remote req).1 = .error e →
        handler nts apiKey remote req =
          (.ok ⟨500, .obj [(js "error", .str (js "Unexpected server error."))]⟩,
            (tryBlock nts apiKey remote req).2)) ∧
      (∀ e, req.body = .error e →
        handler nts apiKey remote req =
          (.ok ⟨500, .obj [(js "error", .str (js "Unexpected server error."))]⟩, [])) ∧
      (∀ k body m, apiKey = some k → k ≠ [] → req.body = .ok body →
        optProp body (js "message") = .str m → m ≠ [] →
        (∀ e, remote (callFor k body m) = .error e →
          handler nts apiKey remote req =
            (.ok ⟨500, .obj [(js "error", .str (js "Unexpected server error."))]⟩,
              [callFor k body m])) ∧
        (∀ response e, remote (callFor k body m) = .ok response →
          (response.ok = false ∧ response.text = .error e) ∨
            (response.ok = true ∧ response.json = .error e) →
          handler nts apiKey remote req =
            (.ok ⟨500, .obj [(js "error", .str (js "Unexpected server error."))]⟩,
              [callFor k body m])))) := by
  refine ⟨?_, fun hm => ⟨?_, ?_, ?_⟩⟩
  · by_cases hm : req.method = js "POST"
    · rw [handler_post nts apiKey remote req hm]
      exact ⟨_, rfl⟩
    · rw [handler_not_post nts apiKey remote req hm]
      exact ⟨_, rfl⟩
  · intro e he
    rw [handler_post nts apiKey remote req hm, he]
    rfl
  · intro e he
    rw [handler_post nts apiKey remote req hm,
      tryBlock_throwing_body nts apiKey remote req e he]
    rfl
  · intro k body m hk hkne hb hmsg hne
    subst hk
    rw [handler_post nts (some k) remote req hm,
      tryBlock_valid nts k remote req body m hb hmsg hne hkne]
    refine ⟨?_, ?_⟩
    · intro e he
      simp only [he]
      rfl
    · intro response e hr hcase
      simp only [hr]
      rcases hcase with ⟨hok, ht⟩ | ⟨hok, hj⟩
      · simp [relay, hok, ht, caught, errorBody]
      · simp [relay, hok, hj, caught, errorBody]

end Check

namespace Test

/-! ## The contract of the config probe -/

/-- C9, as amended. Config probe: for every request, whatever its method and body, the
answer is status 200 with the body of the single field hasKey, which is true exactly when
the credential is set to a non-empty string, and false when it is unset or set to the
empty string; no remote call is made and no exception is raised. -/
theorem probe_reports_key (apiKey : Option JsString) (req : Request) :
    ∃ b : Bool,
      handler apiKey req = (.ok ⟨200, .obj [(js "hasKey", .bool b)]⟩, []) ∧
      (b = true ↔ ∃ k, apiKey = some k ∧ k ≠ []) ∧
      (apiKey = none ∨ apiKey = some [] → b = false) := by
  cases apiKey with
  | none => exact ⟨false, rfl, by simp, by simp⟩
  | some k =>
    cases k with
    | nil => exact ⟨false, rfl, by simp, by simp⟩
    | cons c cs => exact ⟨true, rfl, by simp, by simp⟩

end Test

/-! ## Trimming -/

theorem dropWhile_append_of_ne_nil (p : Nat → Bool) (a b : List Nat)
    (h : a.dropWhile p ≠ []) : (a ++ b).dropWhile p = a.dropWhile p ++ b := by
  induction a with
  | nil => simp at h
  | cons x xs ih =>
    cases hx : p x
    · simp [List.dropWhile, hx]
    · simp only [List.cons_append, List.dropWhile, hx] at h ⊢
      exact ih h

theorem trimStart_append (s t : JsString) (h : trimStart s ≠ []) :
    trimStart (s ++ t) = trimStart s ++ t :=
  dropWhile_append_of_ne_nil isWhiteSpace s t h

theorem trimEnd_append (s t : JsString) (h : trimEnd t ≠ []) :
    trimEnd (s ++ t) = s ++ trimEnd t := by
  have h2 : t.reverse.dropWhile isWhiteSpace ≠ [] := by
    intro h3
    apply h
    simp [trimEnd, h3]
  simp [trimEnd, List.reverse_append, dropWhile_append_of_ne_nil isWhiteSpace _ _ h2]

theorem dropWhile_append_of_all (p : Nat → Bool) (w x : List Nat)
    (h : ∀ c ∈ w, p c = true) : (w ++ x).dropWhile p = x.dropWhile p := by
  induction w with
  | nil => rfl
  | cons c cs ih =>
    have hc : p c = true := h c (List.mem_cons_self c cs)
    simp only [List.cons_append, List.dropWhile, hc]
    exact ih (fun d hd => h d (List.mem_cons_of_mem c hd))

theorem trimEnd_append_of_all (y w : JsString) (h : ∀ c ∈ w, isWhiteSpace c = true) :
    trimEnd (y ++ w) = trimEnd y := by
  unfold trimEnd
  rw [List.reverse_append, dropWhile_append_of_all isWhiteSpace w.reverse y.reverse]
  intro c hc
  exact h c (List.mem_reverse.mp hc)

theorem trim_padded (s w1 w2 : JsString) (h1 : ∀ c ∈ w1, isWhiteSpace c = true)
    (h2 : ∀ c ∈ w2, isWhiteSpace c = true) : trim (w1 ++ s ++ w2) = trim s := by
  unfold trim
  have hstart : trimStart (w1 ++ s ++ w2) = trimStart (s ++ w2) := by
    unfold trimStart
    rw [List.append_assoc, dropWhile_append_of_all isWhiteSpace w1 (s ++ w2) h1]
  rw [hstart]
  by_cases hs : trimStart s = []
  · have hall : ∀ c ∈ s ++ w2, isWhiteSpace c = true := by
      intro c hc
      rcases List.mem_append.mp hc with hc | hc
      · exact (List.dropWhile_eq_nil_iff.mp hs) c hc
      · exact h2 c hc
    have : trimStart (s ++ w2) = [] := List.dropWhile_eq_nil_iff.mpr hall
    rw [this, hs]
  · rw [trimStart_append s w2 hs, trimEnd_append_of_all _ w2 h2]

namespace Check

/-! ## The prompt -/

theorem senderText_eq_senderLine (sender : JsVal) : senderText sender = senderLine sender := by
  cases sender with
  | str s =>
    by_cases h : trim s = []
    · simp [senderText, senderLine, h]
    · have hs : s ≠ [] := by
        intro h2
        apply h
        rw [h2]
        rfl
      have hl : 0 < (trim s).length := List.length_pos.mpr h
      simp [senderText, senderLine, h, truthy, typeOf, hs, hl]
  | _ => rfl

set_option maxRecDepth 100000 in
theorem trimStart_templateHead : trimStart templateHead = promptOpening := by
  decide

set_option maxRecDepth 100000 in
theorem trimEnd_templateTail : trimEnd templateTail = 34 :: promptClosing := by
  decide

set_option maxRecDepth 100000 in
theorem templateMiddle_eq : templateMiddle = promptBridge ++ [34] := by
  decide

set_option maxRecDepth 100000 in
theorem promptOpening_ne_nil : promptOpening ≠ [] := by
  decide

theorem prompt_eq (line m : JsString) :
    prompt line m = promptOpening ++ line ++ promptBridge ++ 34 :: m ++ 34 :: promptClosing := by
  have h1 : trimStart templateHead ≠ [] := by
    rw [trimStart_templateHead]
    exact promptOpening_ne_nil
  have h2 : trimEnd templateTail ≠ [] := by
    rw [trimEnd_templateTail]
    simp
  unfold prompt trim
  rw [show templateHead ++ line ++ templateMiddle ++ m ++ templateTail =
      templateHead ++ (line ++ templateMiddle ++ m ++ templateTail) by simp,
    trimStart_append _ _ h1, trimStart_templateHead,
    show promptOpening ++ (line ++ templateMiddle ++ m ++ templateTail) =
      (promptOpening ++ line ++ templateMiddle ++ m) ++ templateTail by simp,
    trimEnd_append _ _ h2, trimEnd_templateTail, templateMiddle_eq]
  simp

end Check

namespace Check

/-- C10. Prompt construction: for a non-empty message `m`, the one call made carries as
user content the fixed opening, the sender line, the fixed bridge, `m` verbatim between
double quotes and the fixed closing, where the sender line quotes the stripped sender
when the sender is a string with a non-empty stripped form and says "not provided"
otherwise. The prompt built by the code is this text for every sender and message, and
padding a sender with whitespace on either side does not change it. -/
theorem handler_prompt_construction (nts : Bool → Nat → Int → JsString) (k : JsString)
    (remote : Remote) (req : Request) (body : JsVal) (m : JsString)
    (hm : req.method = js "POST") (hb : req.body = .ok body)
    (hmsg : optProp body (js "message") = .str m) (hne : m ≠ []) (hk : k ≠ []) :
    (∃ call, (handler nts (some k) remote req).2 = [call] ∧
      userContent call =
        .str (promptOpening ++ senderLine (optProp body (js "sender")) ++ promptBridge ++
          34 :: m ++ 34 :: promptClosing)) ∧
    (∀ sender,
      prompt (senderText sender) m =
        promptOpening ++ senderLine sender ++ promptBridge ++ 34 :: m ++ 34 :: promptClosing) ∧
    (∀ s w1 w2 : JsString, (∀ c ∈ w1, isWhiteSpace c = true) →
      (∀ c ∈ w2, isWhiteSpace c = true) →
      prompt (senderText (.str (w1 ++ s ++ w2))) m = prompt (senderText (.str s)) m) := by
  refine ⟨⟨callFor k body m, ?_, ?_⟩, ?_, ?_⟩
  · rw [handler_post nts (some k) remote req hm,
      tryBlock_valid nts k remote req body m hb hmsg hne hk]
  · rw [← senderText_eq_senderLine, ← prompt_eq]
    rfl
  · intro sender
    rw [prompt_eq, senderText_eq_senderLine]
  · intro s w1 w2 h1 h2
    rw [senderText_eq_senderLine, senderText_eq_senderLine]
    simp only [senderLine, trim_padded s w1 w2 h1 h2]

end Check

/-! ## The parser never runs out of fuel -/

theorem skipWs_length_le (cs : List Nat) : (skipWs cs).length ≤ cs.length := by
  induction cs with
  | nil => simp [skipWs]
  | cons c cs ih =>
    unfold skipWs
    split
    · exact Nat.le_succ_of_le ih
    · exact Nat.le_refl _

theorem parseStringBody_length (cs acc : List Nat) :
    ∀ (s : JsString) (r : List Nat),
      parseStringBody cs acc = some (s, r) → r.length ≤ cs.length := by
  induction cs, acc using parseStringBody.induct with
  | case1 acc => intro s r h; simp [parseStringBody] at h
  | case2 rest acc =>
    intro s r h
    unfold parseStringBody at h
    simp only [if_true, Option.some.injEq, Prod.mk.injEq] at h
    rw [← h.2]
    simp
  | case3 acc _ => intro s r h; simp [parseStringBody] at h
  | case4 acc a b c2 d r2 u hh _ ih =>
    intro s r h
    unfold parseStringBody at h
    simp [hh] at h
    have := ih s r h
    simp only [List.length_cons]
    omega
  | case5 acc a b c2 d r2 hh _ =>
    intro s r h
    unfold parseStringBody at h
    simp [hh] at h
  | case6 acc cs hcs _ =>
    intro s r h
    unfold parseStringBody at h
    simp at h
  | case7 acc e cs he u hu _ ih =>
    intro s r h
    unfold parseStringBody at h
    simp [he, hu] at h
    have := ih s r h
    simp only [List.length_cons]
    omega
  | case8 acc e cs he hu _ =>
    intro s r h
    unfold parseStringBody at h
    simp [he, hu] at h
  | case9 c rest acc h1 h2 h3 =>
    intro s r h
    unfold parseStringBody at h
    simp [h1, h2, h3] at h
  | case10 c rest acc h1 h2 h3 ih =>
    intro s r h
    unfold parseStringBody at h
    simp [h1, h2, h3] at h
    have := ih s r h
    simp only [List.length_cons]
    omega

theorem takeDigits_length (cs : List Nat) :
    ∀ acc n, (takeDigits cs acc n).2.2.length ≤ cs.length := by
  induction cs with
  | nil => intro acc n; simp [takeDigits]
  | cons c cs ih =>
    intro acc n
    unfold takeDigits
    split
    · exact Nat.le_succ_of_le (ih _ _)
    · exact Nat.le_refl _

theorem parseExponent_length (cs : List Nat) (e : Int) (r : List Nat)
    (h : parseExponent cs = some (e, r)) : r.length ≤ cs.length := by
  unfold parseExponent at h
  split at h
  · cases h; simp
  · rename_i c r0
    split at h
    · have hsigned : ∀ (signed : Bool × List Nat), signed.2.length ≤ r0.length →
          (match takeDigits signed.2 0 0 with
            | (e2, n, r2) =>
              if n = 0 then none
              else some (if signed.1 = true then - (e2 : Int) else (e2 : Int), r2)) =
            some (e, r) → r.length ≤ (c :: r0).length := by
        intro signed hs hmatch
        have hd := takeDigits_length signed.2 0 0
        rcases htd : takeDigits signed.2 0 0 with ⟨e2, n2, r2⟩
        rw [htd] at hd hmatch
        simp only at hmatch hd
        split at hmatch
        · cases hmatch
        · cases hmatch
          simp
          omega
      apply hsigned _ _ h
      split
      · simp
      · split
        · simp
        · split
          · simp
          · simp
    · cases h; simp

theorem parseFraction_length (cs : List Nat) (i m n : Nat) (r : List Nat)
    (h : parseFraction cs i = some (m, n, r)) : r.length ≤ cs.length := by
  unfold parseFraction at h
  split at h
  · cases h; simp
  · rename_i c r0
    split at h
    · have hd := takeDigits_length r0 i 0
      rcases htd : takeDigits r0 i 0 with ⟨m2, n2, r2⟩
      rw [htd] at hd h
      simp only at h hd
      split at h
      · cases h
      · cases h
        simp
        omega
    · cases h; simp

theorem parseNumber_length (cs : List Nat) (v : JsVal) (r : List Nat)
    (h : parseNumber cs = some (v, r)) : r.length ≤ cs.length := by
  unfold parseNumber at h
  have hsigned : ∀ (signed : Bool × List Nat), signed.2.length ≤ cs.length →
      (match signed.2 with
        | [] => none
        | d :: r1 =>
          if isDigit d = true then
            match parseFraction
                (if d = 48 then (0, r1)
                  else match takeDigits (d :: r1) 0 0 with
                    | (m, _, r) => (m, r)).2
                (if d = 48 then (0, r1)
                  else match takeDigits (d :: r1) 0 0 with
                    | (m, _, r) => (m, r)).1 with
            | none => none
            | some (m, fracLen, r2) =>
              match parseExponent r2 with
              | none => none
              | some (e, r3) => some (JsVal.num signed.1 m (e - (fracLen : Int)), r3)
          else none) = some (v, r) → r.length ≤ cs.length := by
    intro signed hs hmatch
    split at hmatch
    · cases hmatch
    · rename_i d r1 hd
      rw [hd] at hs
      split at hmatch
      · have hint : (if d = 48 then (0, r1)
            else match takeDigits (d :: r1) 0 0 with
              | (m, _, r) => (m, r)).2.length ≤ (d :: r1).length := by
          split
          · simp
          · have := takeDigits_length (d :: r1) 0 0
            rcases htd : takeDigits (d :: r1) 0 0 with ⟨m2, n2, r2⟩
            rw [htd] at this
            exact this
        split at hmatch
        · cases hmatch
        · rename_i m fracLen r2 hf
          have h2 := parseFraction_length _ _ _ _ _ hf
          split at hmatch
          · cases hmatch
          · rename_i e r3 he
            have h3 := parseExponent_length _ _ _ he
            cases hmatch
            omega
      · cases hmatch
  apply hsigned _ _ h
  split
  · simp
  · split
    · simp
    · simp

theorem parse_rest_length (f : Nat) :
    (∀ cs v r, parseValue f cs = .ok v r → r.length ≤ cs.length) ∧
    (∀ cs acc v r, parseElements f cs acc = .ok v r → r.length ≤ cs.length) ∧
    (∀ cs acc v r, parseMembers f cs acc = .ok v r → r.length ≤ cs.length) := by
  induction f with
  | zero =>
    refine ⟨?_, ?_, ?_⟩
    · intro cs v r h; simp [parseValue] at h
    · intro cs acc v r h; simp [parseElements] at h
    · intro cs acc v r h; simp [parseMembers] at h
  | succ f ih =>
    obtain ⟨ihV, ihE, ihM⟩ := ih
    refine ⟨?_, ?_, ?_⟩
    · intro cs v r h
      have hws := skipWs_length_le cs
      unfold parseValue at h
      split at h
      · rename_i r0 heq
        rw [heq] at hws
        cases h
        simp at hws
        omega
      · rename_i r0 heq
        rw [heq] at hws
        cases h
        simp at hws
        omega
      · rename_i r0 heq
        rw [heq] at hws
        cases h
        simp at hws
        omega
      · rename_i r0 heq
        rw [heq] at hws
        simp at hws
        split at h
        · rename_i s r1 hs
          have := parseStringBody_length _ _ _ _ hs
          cases h
          omega
        · cases h
      · rename_i r0 heq
        rw [heq] at hws
        simp at hws
        have hws2 := skipWs_length_le r0
        split at h
        · rename_i r1 heq2
          rw [heq2] at hws2
          simp at hws2
          cases h
          omega
        · have := ihE _ _ _ _ h
          omega
      · rename_i r0 heq
        rw [heq] at hws
        simp at hws
        have hws2 := skipWs_length_le r0
        split at h
        · rename_i r1 heq2
          rw [heq2] at hws2
          simp at hws2
          cases h
          omega
        · have := ihM _ _ _ _ h
          omega
      · rename_i cs1 _ _ _ _ _ _
        cases hn : parseNumber (skipWs cs) with
        | none => simp [hn, ofOption] at h
        | some vr =>
          obtain ⟨v2, r2⟩ := vr
          simp only [hn, ofOption, Parsed.ok.injEq] at h
          have := parseNumber_length _ _ _ hn
          rw [← h.2]
          omega
    · intro cs acc v r h
      unfold parseElements at h
      split at h
      · rename_i v1 r1 hv
        have h1 := ihV _ _ _ hv
        have hws := skipWs_length_le r1
        split at h
        · rename_i r2 heq
          rw [heq] at hws
          simp at hws
          have := ihE _ _ _ _ h
          omega
        · rename_i r2 heq
          rw [heq] at hws
          simp at hws
          cases h
          omega
        · cases h
      · cases h
      · cases h
    · intro cs acc v r h
      have hws := skipWs_length_le cs
      unfold parseMembers at h
      split at h
      · rename_i r0 heq
        rw [heq] at hws
        simp at hws
        split at h
        · rename_i k r1 hk
          have h1 := parseStringBody_length _ _ _ _ hk
          have hws1 := skipWs_length_le r1
          split at h
          · rename_i r2 heq2
            rw [heq2] at hws1
            simp at hws1
            split at h
            · rename_i v3 r3 hv
              have h3 := ihV _ _ _ hv
              have hws3 := skipWs_length_le r3
              split at h
              · rename_i r4 heq4
                rw [heq4] at hws3
                simp at hws3
                have := ihM _ _ _ _ h
                omega
              · rename_i r4 heq4
                rw [heq4] at hws3
                simp at hws3
                cases h
                omega
              · cases h
            · cases h
            · cases h
          · cases h
        · cases h
      · cases h

theorem parse_fuel (f : Nat) :
    (∀ cs, 2 * cs.length + 1 ≤ f → parseValue f cs ≠ .outOfFuel) ∧
    (∀ cs acc, 2 * cs.length + 2 ≤ f → parseElements f cs acc ≠ .outOfFuel) ∧
    (∀ cs acc, 2 * cs.length + 2 ≤ f → parseMembers f cs acc ≠ .outOfFuel) := by
  induction f with
  | zero =>
    refine ⟨?_, ?_, ?_⟩
    · intro cs h; omega
    · intro cs acc h; omega
    · intro cs acc h; omega
  | succ f ih =>
    obtain ⟨ihV, ihE, ihM⟩ := ih
    refine ⟨?_, ?_, ?_⟩
    · intro cs hf h
      have hws := skipWs_length_le cs
      unfold parseValue at h
      split at h
      · cases h
      · cases h
      · cases h
      · split at h <;> cases h
      · rename_i r0 heq
        rw [heq] at hws
        simp at hws
        split at h
        · cases h
        · exact ihE r0 [] (by omega) h
      · rename_i r0 heq
        rw [heq] at hws
        simp at hws
        split at h
        · cases h
        · exact ihM r0 [] (by omega) h
      · cases hn : parseNumber (skipWs cs) with
        | none => simp [hn, ofOption] at h
        | some vr => simp [hn, ofOption] at h
    · intro cs acc hf h
      unfold parseElements at h
      split at h
      · rename_i v1 r1 hv
        have h1 := (parse_rest_length f).1 _ _ _ hv
        have hws := skipWs_length_le r1
        split at h
        · rename_i r2 heq
          rw [heq] at hws
          simp at hws
          exact ihE r2 _ (by omega) h
        · cases h
        · cases h
      · cases h
      · rename_i hv
        exact ihV cs (by omega) hv
    · intro cs acc hf h
      have hws := skipWs_length_le cs
      unfold parseMembers at h
      split at h
      · rename_i r0 heq
        rw [heq] at hws
        simp at hws
        split at h
        · rename_i k r1 hk
          have h1 := parseStringBody_length _ _ _ _ hk
          have hws1 := skipWs_length_le r1
          split at h
          · rename_i r2 heq2
            rw [heq2] at hws1
            simp at hws1
            split at h
            · rename_i v3 r3 hv
              have h3 := (parse_rest_length f).1 _ _ _ hv
              have hws3 := skipWs_length_le r3
              split at h
              · rename_i r4 heq4
                rw [heq4] at hws3
                simp at hws3
                exact ihM r4 _ (by omega) h
              · cases h
              · cases h
            · cases h
            · rename_i hv
              exact ihV r2 (by omega) hv
          · cases h
        · cases h
      · cases h

/-- The parser always has fuel to spare: a `none` of `jsonParseText` is a syntax error. -/
theorem parseText_fuel (s : JsString) : parseText s ≠ .outOfFuel := by
  intro h
  unfold parseText at h
  split at h
  · split at h <;> cases h
  · cases h
  · rename_i hv
    exact (parse_fuel (parseFuel s)).1 s (by unfold parseFuel; omega) hv

theorem jsonParseText_none_iff (s : JsString) :
    jsonParseText s = none ↔ parseText s = .syntaxError := by
  unfold jsonParseText
  cases h : parseText s with
  | ok v r => simp
  | syntaxError => simp
  | outOfFuel => exact absurd h (parseText_fuel s)

/-! ## Runs of the handlers on the sample inputs -/

namespace Sample

theorem handler_method_not_allowed_witness :
    Check.handler numberToString none offline getRequest =
      (.ok ⟨405, .obj [(js "error", .str (js "Method not allowed, use POST."))]⟩, []) :=
  Check.handler_method_not_allowed numberToString none offline getRequest (by decide)

theorem handler_message_validation_witness :
    Check.handler numberToString (some apiKey) offline emptyRequest =
      (.ok ⟨400, .obj [(js "error", .str (js "Missing \"message\" in body."))]⟩, []) :=
  (Check.handler_message_validation numberToString (some apiKey) offline emptyRequest
    rfl).2.1 ⟨.obj [], rfl, Or.inr (Or.inl rfl)⟩

theorem handler_missing_credential_witness :
    Check.handler numberToString none (remote (reply (.str verdictText))) request =
      (.ok ⟨500, .obj [(js "error", .str (js "Server configuration error."))]⟩, []) :=
  Check.handler_missing_credential numberToString none (remote (reply (.str verdictText)))
    request requestBody message rfl rfl rfl (by decide) (Or.inl rfl)

theorem handler_upstream_error_witness :
    ∃ d : JsString,
      Check.handler numberToString (some apiKey) (remote (errorReply longText)) request =
        (.ok ⟨500, .obj [(js "error", .str (js "OpenAI API error.")),
          (js "details", .str d)]⟩, [call]) ∧
      d = longText.take (min 200 longText.length) ∧ d.length = min 200 longText.length ∧
      d.length ≤ 200 ∧ (∃ rest, longText = d ++ rest) ∧ (longText.length ≤ 200 → d = longText) :=
  Check.handler_upstream_error numberToString apiKey (remote (errorReply longText)) request
    requestBody message (errorReply longText) longText rfl rfl rfl (by decide) (by decide)
    rfl rfl rfl

set_option maxRecDepth 100000 in
theorem handler_malformed_content_witness :
    Check.handler numberToString (some apiKey)
        (remote (reply (.str (js "Sorry, I cannot help with that.")))) request =
      (.ok ⟨500, .obj [(js "error", .str (js "Failed to parse AI response JSON."))]⟩,
        [call]) ∧
    Check.handler numberToString (some apiKey) (remote ⟨true, .ok [], .ok (.obj [])⟩)
        request =
      (.ok ⟨500, .obj [(js "error", .str (js "Failed to parse AI response JSON."))]⟩,
        [call]) :=
  ⟨(Check.handler_malformed_content numberToString apiKey
      (remote (reply (.str (js "Sorry, I cannot help with that.")))) request requestBody
      message (reply (.str (js "Sorry, I cannot help with that.")))
      (envelope (.str (js "Sorry, I cannot help with that."))) rfl rfl rfl (by decide)
      (by decide) rfl rfl rfl).1
      (Or.inr ⟨js "Sorry, I cannot help with that.", rfl, rfl⟩),
    (Check.handler_malformed_content numberToString apiKey
      (remote ⟨true, .ok [], .ok (.obj [])⟩) request requestBody message
      ⟨true, .ok [], .ok (.obj [])⟩ (.obj []) rfl rfl rfl (by decide) (by decide) rfl rfl
      rfl).1 (Or.inl (Or.inl rfl))⟩

set_option maxRecDepth 100000 in
/-- C7, as stated, fails: a reply whose first choice has the content null, the way the
service writes a message without content, is answered with "AI response missing required
fields." and not with "Failed to parse AI response JSON.". -/
theorem handler_null_content :
    Check.contentOf (envelope .null) = .null ∧
      Check.handler numberToString (some apiKey) (remote (reply .null)) request =
        (.ok ⟨500, .obj [(js "error", .str (js "AI response missing required fields."))]⟩,
          [call]) ∧
      js "AI response missing required fields." ≠ js "Failed to parse AI response JSON." :=
  ⟨rfl, rfl, by decide⟩

set_option maxRecDepth 100000 in
theorem handler_response_validation_witness :
    Check.handler numberToString (some apiKey) (remote (reply (.str verdictText))) request =
      (.ok ⟨200, .obj [(js "risk", .str (js "high")),
        (js "summary", .str (js "Claims bank account suspension")),
        (js "reason", .str (js "Urgent bank messages with links are a common scam tactic")),
        (js "advice",
         .str (js "Do not click the link; call your bank directly using the number on your card."))]⟩,
        [call]) :=
  (Check.handler_response_validation numberToString apiKey (remote (reply (.str verdictText)))
    request requestBody message (reply (.str verdictText)) (envelope (.str verdictText))
    verdictValue rfl rfl rfl (by decide) (by decide) rfl rfl rfl rfl).1 rfl

set_option maxRecDepth 100000 in
/-- C2, as stated, fails: with a present credential and a valid message, a remote content
whose risk is "critical" and whose advice is a list is answered with status 200, and the
body is not a Verdict: its risk is none of high, medium, low and its advice is no
string. -/
theorem handler_ok_not_verdict :
    (Check.handler numberToString (some apiKey) (remote (reply (.str looseText))) request).1 =
        .ok ⟨200, looseValue⟩ ∧
      ¬ Check.IsVerdict looseValue ∧
      optProp looseValue (js "risk") = .str (js "critical") ∧
      js "critical" ≠ js "high" ∧ js "critical" ≠ js "medium" ∧ js "critical" ≠ js "low" ∧
      optProp looseValue (js "advice") =
        .arr [.str (js "Do not click"), .str (js "Call your bank")] := by
  refine ⟨rfl, ?_, rfl, by decide, by decide, by decide, rfl⟩
  intro h
  obtain ⟨s, hs, _⟩ := h.2.2.2
  have h2 : JsVal.arr [.str (js "Do not click"), .str (js "Call your bank")] = .str s := hs
  cases h2

set_option maxRecDepth 100000 in
theorem handler_ok_is_checked_witness :
    ∃ call response data p,
      (Check.handler numberToString (some apiKey) (remote (reply (.str verdictText)))
        request).2 = [call] ∧
      remote (reply (.str verdictText)) call = .ok response ∧
      response.ok = true ∧ response.json = .ok data ∧
      jsonParse numberToString (Check.contentOf data) = some p ∧
      truthy (optProp p (js "risk")) = true ∧ truthy (optProp p (js "summary")) = true ∧
      truthy (optProp p (js "reason")) = true ∧ truthy (optProp p (js "advice")) = true ∧
      verdictValue =
        .obj [(js "risk", optProp p (js "risk")), (js "summary", optProp p (js "summary")),
          (js "reason", optProp p (js "reason")), (js "advice", optProp p (js "advice"))] :=
  Check.handler_ok_is_checked numberToString (some apiKey) (remote (reply (.str verdictText)))
    request ⟨200, verdictValue⟩ rfl rfl

theorem handler_catch_all_witness :
    Check.handler numberToString (some apiKey) offline brokenRequest =
        (.ok ⟨500, .obj [(js "error", .str (js "Unexpected server error."))]⟩, []) ∧
      Check.handler numberToString (some apiKey) offline request =
        (.ok ⟨500, .obj [(js "error", .str (js "Unexpected server error."))]⟩, [call]) :=
  ⟨((Check.handler_catch_all numberToString (some apiKey) offline brokenRequest).2 rfl).2.1
      "Invalid JSON" rfl,
    (((Check.handler_catch_all numberToString (some apiKey) offline request).2 rfl).2.2
      apiKey requestBody message rfl (by decide) rfl rfl (by decide)).1 "fetch failed" rfl⟩

/-- C9, as stated, fails: with the credential set to the empty string the probe answers
hasKey false. -/
theorem probe_empty_key :
    (some ([] : JsString)).isSome = true ∧
      Test.handler (some []) getRequest =
        (.ok ⟨200, .obj [(js "hasKey", .bool false)]⟩, []) :=
  ⟨rfl, rfl⟩

theorem probe_reports_key_witness :
    ∃ b : Bool,
      Test.handler (some apiKey) getRequest =
        (.ok ⟨200, .obj [(js "hasKey", .bool b)]⟩, []) ∧
      (b = true ↔ ∃ k, some apiKey = some k ∧ k ≠ []) ∧
      (some apiKey = none ∨ some apiKey = some [] → b = false) :=
  Test.probe_reports_key (some apiKey) getRequest

set_option maxRecDepth 100000 in
theorem handler_prompt_construction_witness :
    ∃ c, (Check.handler numberToString (some apiKey) offline request).2 = [c] ∧
      Check.userContent c =
        .str (Check.promptOpening ++ js "Sender: \"Bank Alert\"." ++ Check.promptBridge ++
          js "\"Your bank account is suspended, click here\"" ++ Check.promptClosing) :=
  (Check.handler_prompt_construction numberToString apiKey offline request requestBody message
    rfl rfl rfl (by decide) (by decide)).1

end Sample

end ElderGuard
